import Mathlib

/-!
Verification of the Bosch device-profile converters of this repository
(src/devices/bosch.ts and src/lib/bosch.ts) against their specification.

The converters are shallowly embedded: a toZigbee convertSet becomes a pure
function from the property key and requested value to either a descriptive
error or a list of issued wire operations plus an optimistic state patch; a
fromZigbee convert becomes a pure function from the decoded message fields
(and, for the stateful button-press converter, the explicit dedup store and
long-press registry) to a state patch, the emitted side-effect commands and
the updated stores.  Helpers of the repository that are outside the given
excerpt (utils.getFromLookup, utils.hasAlreadyProcessedMessage, the
globalStore module, the library fromZigbee converters of the BSIR-EZ
profile) are modelled from the specification and marked as such on their
doc comments.
-/

namespace BoschZhc

/-- A normalized JavaScript-like value as it appears in state patches and
requested property values (src uses string, number, boolean and undefined). -/
inductive Val where
  | str (s : String)
  | num (n : Int)
  | bool (b : Bool)
  | undef
  deriving Repr, DecidableEq

/-- A normalized state patch: flat mapping from property name to value
(spec section 3, Normalized State Patch). -/
abbrev Patch := List (String × Val)

/-- An outbound wire operation issued by a converter (spec section 6,
Outbound operation shape).  Numeric-addressed and name-addressed variants
mirror the two addressing styles used in src/devices/bosch.ts and
src/lib/bosch.ts. -/
inductive Action where
  | writeAttr (cluster attr : Nat) (value : Val) (typ : Nat)
  | writeNamed (cluster attrName : String) (value : Nat)
  | writeBufAttr (cluster : String) (attr : Nat) (data : List Nat) (typ : Nat)
  | readAttrs (cluster : Nat) (attrs : List Nat)
  | readNamed (cluster : String) (attrs : List String)
  | readNamedNum (cluster : String) (attrs : List Nat)
  | commandNum (cluster cmd data : Nat)
  | commandNamed (cluster cmd : String) (data : List Nat)
  | commandResponse (cluster cmd : String) (alarmcode clusterid : Nat)
  deriving Repr, DecidableEq

/-- Result of a convertSet invocation: either the issued wire operations
together with the optional optimistic state patch (a converter that falls
through all key branches returns undefined, modelled as state none), or a
thrown error carrying the wire operations already issued before the throw. -/
inductive SetResult where
  | ok (actions : List Action) (state : Option Patch)
  | error (message : String) (actions : List Action)
  deriving Repr, DecidableEq

/-- The convertSet failed with an error and issued no wire operation. -/
def SetResult.failedCleanly : SetResult → Bool
  | .error _ [] => true
  | _ => false

/-- Result of a convertGet invocation: the issued read operations, or a
thrown error. -/
inductive GetResult where
  | ok (actions : List Action)
  | error (message : String)
  deriving Repr, DecidableEq

/-- Modelled from the spec: utils.getFromLookup (src/lib/utils, not part of
the excerpt).  Per spec sections 4.2, 4.3 and 8, an encode converter
translates the symbolic value into its protocol integer code through the
declared static lookup table and must fail with a descriptive error when
the requested value is outside the table. -/
def getFromLookup (value : Val) (table : List (String × Nat)) : Except String Nat :=
  match value with
  | .str s =>
    match table.find? (fun p => p.fst == s) with
    | some p => .ok p.snd
    | none => .error ("Value " ++ s ++ " is not allowed, expected one of the lookup table keys")
  | _ => .error "Value is not allowed, expected one of the lookup table keys"

/-- Inverse direction of a static lookup table: the symbol whose code is
the given protocol integer (spec section 4.3: decoding is the inverse
lookup). -/
def lookupByValue (table : List (String × Nat)) (code : Nat) : Option String :=
  (table.find? (fun p => p.snd == code)).map Prod.fst

/-- Lookup table sirenVolume, src/devices/bosch.ts lines 26 to 30. -/
def sirenVolume : List (String × Nat) :=
  [("low", 0x01), ("medium", 0x02), ("high", 0x03)]

/-- Lookup table sirenLight, src/devices/bosch.ts lines 32 to 36. -/
def sirenLight : List (String × Nat) :=
  [("only_light", 0x00), ("only_siren", 0x01), ("siren_and_light", 0x02)]

/-- Lookup table outdoorSirenState, src/devices/bosch.ts lines 38 to 41. -/
def outdoorSirenState : List (String × Nat) :=
  [("ON", 0x07), ("OFF", 0x00)]

/-- Lookup table sirenPowerSupply, src/devices/bosch.ts lines 43 to 47. -/
def sirenPowerSupply : List (String × Nat) :=
  [("solar_panel", 0x01), ("ac_power_supply", 0x02), ("dc_power_supply", 0x03)]

/-- Lookup table buttonMap of the Universal Switch II,
src/devices/bosch.ts lines 50 to 59. -/
def buttonMap : List (String × Nat) :=
  [("config_led_top_left_press", 0x10),
   ("config_led_top_right_press", 0x11),
   ("config_led_bottom_left_press", 0x12),
   ("config_led_bottom_right_press", 0x13),
   ("config_led_top_left_longpress", 0x20),
   ("config_led_top_right_longpress", 0x21),
   ("config_led_bottom_left_longpress", 0x22),
   ("config_led_bottom_right_longpress", 0x23)]

/-- Declared key list of tzLocal.rbshoszbeu, src/devices/bosch.ts line 87. -/
def rbshoszbeuKeys : List String :=
  ["light_delay", "siren_delay", "light_duration", "siren_duration",
   "siren_volume", "alarm_state", "power_source", "siren_and_light"]

/-- Embedding of tzLocal.rbshoszbeu.convertSet, src/devices/bosch.ts lines
88 to 135.  Each branch mirrors one if block of the source; the numeric
keys pass the requested value through unvalidated, the enum keys translate
it through their lookup table before the write, and the alarm_state key
issues a cluster command instead of a write.  A key outside all branches
falls through and returns undefined. -/
def rbshoszbeu_convertSet (key : String) (value : Val) : SetResult :=
  if key = "light_delay" then
    .ok [.writeAttr 0x0502 0xa004 value 0x21] (some [("light_delay", value)])
  else if key = "siren_delay" then
    .ok [.writeAttr 0x0502 0xa003 value 0x21] (some [("siren_delay", value)])
  else if key = "light_duration" then
    .ok [.writeAttr 0x0502 0xa005 value 0x20] (some [("light_duration", value)])
  else if key = "siren_duration" then
    .ok [.writeAttr 0x0502 0xa000 value 0x20] (some [("siren_duration", value)])
  else if key = "siren_and_light" then
    match getFromLookup value sirenLight with
    | .ok index => .ok [.writeAttr 0x0502 0xa001 (.num index) 0x20] (some [("siren_and_light", value)])
    | .error e => .error e []
  else if key = "siren_volume" then
    match getFromLookup value sirenVolume with
    | .ok index => .ok [.writeAttr 0x0502 0xa002 (.num index) 0x20] (some [("siren_volume", value)])
    | .error e => .error e []
  else if key = "power_source" then
    match getFromLookup value sirenPowerSupply with
    | .ok index => .ok [.writeAttr 0x0001 0xa002 (.num index) 0x20] (some [("power_source", value)])
    | .error e => .error e []
  else if key = "alarm_state" then
    match getFromLookup value outdoorSirenState with
    | .ok index =>
      if index = 0 then
        .ok [.commandNum 0x0502 0xf0 0] (some [("alarm_state", value)])
      else
        .ok [.commandNum 0x0502 0xf0 7] (some [("alarm_state", value)])
    | .error e => .error e []
  else
    .ok [] none

/-- Embedding of tzLocal.rbshoszbeu.convertGet, src/devices/bosch.ts lines
136 to 162: a switch over the key issuing the matching attribute read, with
a throwing default branch. -/
def rbshoszbeu_convertGet (key : String) : GetResult :=
  if key = "light_delay" then .ok [.readAttrs 0x0502 [0xa004]]
  else if key = "siren_delay" then .ok [.readAttrs 0x0502 [0xa003]]
  else if key = "light_duration" then .ok [.readAttrs 0x0502 [0xa005]]
  else if key = "siren_duration" then .ok [.readAttrs 0x0502 [0xa000]]
  else if key = "siren_and_light" then .ok [.readAttrs 0x0502 [0xa001]]
  else if key = "siren_volume" then .ok [.readAttrs 0x0502 [0xa002]]
  else if key = "alarm_state" then .ok [.readAttrs 0x0502 [0xf0]]
  else .error ("Unhandled key toZigbee.rbshoszbeu.convertGet " ++ key)

/-- One hexadecimal digit of a string, as decoded by Buffer.from with the
hex encoding. -/
def hexDigit (c : Char) : Option Nat :=
  if c.isDigit then some (c.toNat - 48)
  else if 97 ≤ c.toNat ∧ c.toNat ≤ 102 then some (c.toNat - 87)
  else if 65 ≤ c.toNat ∧ c.toNat ≤ 70 then some (c.toNat - 55)
  else none

/-- Byte list produced by Buffer.from over hex digit pairs; decoding stops
at the first character pair that is not two hex digits, as Buffer.from
does. -/
def hexDecodeAux : List Char → List Nat
  | c1 :: c2 :: rest =>
    match hexDigit c1, hexDigit c2 with
    | some h, some l => (16 * h + l) :: hexDecodeAux rest
    | _, _ => []
  | _ => []

/-- Embedding of Buffer.from (value, hex) as used by the LED configuration
converters. -/
def hexDecode (s : String) : List Nat := hexDecodeAux s.data

/-- Embedding of tzLocal.bhius_config.convertGet, src/devices/bosch.ts
lines 166 to 171: a key outside buttonMap throws, otherwise the matching
attribute of the boschSpecific cluster is read. -/
def bhius_config_convertGet (key : String) : GetResult :=
  match buttonMap.find? (fun p => p.fst == key) with
  | none => .error ("Unknown key " ++ key)
  | some p => .ok [.readNamedNum "boschSpecific" [p.snd]]

/-- Embedding of tzLocal.bhius_config.convertSet, src/devices/bosch.ts
lines 172 to 187: a key outside buttonMap silently returns without issuing
any write; otherwise the hex value is decoded, its length checked to be 9
bytes, and the buffer written to the matching attribute. -/
def bhius_config_convertSet (key : String) (value : String) : SetResult :=
  match buttonMap.find? (fun p => p.fst == key) with
  | none => .ok [] none
  | some p =>
    let buffer := hexDecode value
    if buffer.length ≠ 9 then
      .error ("Invalid configuration length: should be 9") []
    else
      .ok [.writeBufAttr "boschSpecific" p.snd buffer 65] (some [(key, .str value)])

/-- Lookup table smokeSensitivity of the Twinguard extend,
src/lib/bosch.ts lines 467 to 471.  Note the descending codes: low is
0x03, medium is 0x02, high is 0x01. -/
def smokeSensitivity : List (String × Nat) :=
  [("low", 0x03), ("medium", 0x02), ("high", 0x01)]

/-- Lookup table sirenState of the Twinguard extend, src/lib/bosch.ts
lines 472 to 477. -/
def twinguardSirenState : List (String × Nat) :=
  [("stop", 0x00), ("pre_alarm", 0x01), ("fire", 0x02), ("burglar", 0x03)]

/-- Lookup table stateOffOn of the Twinguard extend, src/lib/bosch.ts
lines 478 to 481. -/
def stateOffOn : List (String × Nat) :=
  [("OFF", 0x00), ("ON", 0x01)]

/-- JavaScript truthiness of a value, used by the self_test branch
(if (value) in the source). -/
def Val.truthy : Val → Bool
  | .str s => s ≠ ""
  | .num n => n ≠ 0
  | .bool b => b
  | .undef => false

/-- JavaScript loose equality of a value with true (value == true in the
source).  A boolean compares directly; == coerces true to the number 1, so
the number 1 and the string 1 also compare equal. -/
def Val.looseEqTrue : Val → Bool
  | .str s => s = "1"
  | .num n => n = 1
  | .bool b => b
  | .undef => false

/-- Embedding of the Twinguard toZigbee convertSet, src/lib/bosch.ts lines
627 to 667.  The sensitivity, pre_alarm and heartbeat branches translate
the value through their lookup table and write it; self_test conditionally
issues the test command; alarm dispatches on the siren state code.
Branches of the source that end without a return statement produce the
undefined state, modelled as none. -/
def twinguard_convertSet (key : String) (value : Val) : SetResult :=
  if key = "sensitivity" then
    match getFromLookup value smokeSensitivity with
    | .ok index => .ok [.writeNamed "twinguardSmokeDetector" "sensitivity" index]
        (some [("sensitivity", value)])
    | .error e => .error e []
  else if key = "pre_alarm" then
    match getFromLookup value stateOffOn with
    | .ok index => .ok [.writeNamed "twinguardOptions" "pre_alarm" index]
        (some [("pre_alarm", value)])
    | .error e => .error e []
  else if key = "heartbeat" then
    match getFromLookup value stateOffOn with
    | .ok index => .ok [.writeNamed "twinguardSetup" "heartbeat" index]
        (some [("heartbeat", value)])
    | .error e => .error e []
  else if key = "self_test" then
    if value.truthy then
      .ok [.commandNamed "twinguardSmokeDetector" "initiateTestMode" []] none
    else
      .ok [] none
  else if key = "alarm" then
    match getFromLookup value twinguardSirenState with
    | .ok index =>
      if index = 0x00 then
        .ok [.commandResponse "genAlarms" "alarm" 0x16 0xe000,
             .commandResponse "genAlarms" "alarm" 0x14 0xe000,
             .commandNamed "twinguardAlarm" "burglarAlarm" [0x00]] none
      else if index = 0x01 then
        .ok [.commandResponse "genAlarms" "alarm" 0x11 0xe000]
          (some [("siren_state", .str "pre_alarm")])
      else if index = 0x02 then
        .ok [.commandResponse "genAlarms" "alarm" 0x10 0xe000]
          (some [("siren_state", .str "fire")])
      else if index = 0x03 then
        .ok [.commandNamed "twinguardAlarm" "burglarAlarm" [0x01]] none
      else
        .ok [] none
    | .error e => .error e []
  else
    .ok [] none

/-- Embedding of the Twinguard toZigbee convertGet, src/lib/bosch.ts lines
668 to 686. -/
def twinguard_convertGet (key : String) : GetResult :=
  if key = "sensitivity" then .ok [.readNamed "twinguardSmokeDetector" ["sensitivity"]]
  else if key = "pre_alarm" then .ok [.readNamed "twinguardOptions" ["pre_alarm"]]
  else if key = "heartbeat" then .ok [.readNamed "twinguardSetup" ["heartbeat"]]
  else if key = "alarm" ∨ key = "self_test" then
    .ok [.readNamed "twinguardAlarm" ["alarm_status"]]
  else .error ("Unhandled key boschExtend.twinguard.toZigbee.convertGet " ++ key)

/-- Embedding of the Twinguard twinguardSmokeDetector fromZigbee converter,
src/lib/bosch.ts lines 510 to 519.  The source decodes the reported
sensitivity code POSITIONALLY, indexing the key array of the lookup table
by the wire value: result.sensitivity is the element of the key list at
index code, and undefined when the code is out of range. -/
def twinguard_smokeDetector_convert (sensitivity : Option Nat) : Patch :=
  match sensitivity with
  | some code =>
    match (smokeSensitivity.map Prod.fst).get? code with
    | some s => [("sensitivity", .str s)]
    | none => [("sensitivity", .undef)]
  | none => []

/-- Alarm-code lookup of the Twinguard genAlarms fromZigbee converter,
src/lib/bosch.ts lines 611 to 616. -/
def genAlarmsLookup : List (Nat × String) :=
  [(0x10, "fire"), (0x11, "pre_alarm"), (0x14, "clear"), (0x16, "silenced")]

/-- Embedding of the Twinguard genAlarms fromZigbee converter,
src/lib/bosch.ts lines 606 to 624.  The converter builds the siren_state
patch, then for the alarm codes 0x10 and 0x11 AWAITS an acknowledgment
commandResponse without any catch handler: when that outbound command is
rejected (ackFails), the rejection propagates out of the async convert
invocation and the patch is lost, modelled as the error result. -/
def twinguard_genAlarms_convert (ackFails : Bool) (alarmcode : Nat) :
    Except String (List Action × Patch) :=
  let siren : Val :=
    match genAlarmsLookup.find? (fun p => p.fst == alarmcode) with
    | some p => .str p.snd
    | none => .undef
  let patch : Patch := [("siren_state", siren)]
  if alarmcode = 0x10 ∨ alarmcode = 0x11 then
    if ackFails then
      .error "commandResponse rejected"
    else
      .ok ([.commandResponse "genAlarms" "alarm" alarmcode 0xe000], patch)
  else
    .ok ([], patch)

/-- Lookup table adaptationStatus of the valve adaptation extend,
src/lib/bosch.ts lines 150 to 156. -/
def adaptationStatus : List (String × Nat) :=
  [("none", 0x00), ("ready_to_calibrate", 0x01), ("calibration_in_progress", 0x02),
   ("error", 0x03), ("success", 0x04)]

/-- Embedding of boschModernExtend.valveAdaptProcess convertSet,
src/lib/bosch.ts lines 180 to 193.  When the requested value is loosely
equal to true, the known valve_adapt_status from the state is translated
through the adaptationStatus table; the codes ready_to_calibrate (0x01)
and error (0x03) issue the calibrateValve command, every other code throws
before any command.  The optimistic patch is returned afterwards in the
non-throwing paths. -/
def valveAdaptProcess_convertSet (value : Val) (valve_adapt_status : Val) : SetResult :=
  if value.looseEqTrue then
    match getFromLookup valve_adapt_status adaptationStatus with
    | .error e => .error e []
    | .ok adaptStatus =>
      if adaptStatus = 0x01 ∨ adaptStatus = 0x03 then
        .ok [.commandNamed "hvacThermostat" "calibrateValve" []]
          (some [("valve_adapt_process", value)])
      else
        .error "Valve adaptation process not possible right now." []
  else
    .ok [] (some [("valve_adapt_process", value)])

/-- Embedding of the airpurity factor selection of the Twinguard
twinguardMeasurements fromZigbee converter, src/lib/bosch.ts lines 534 to
551: the voc and co2 factors selected by the if chain over the reported
iaq value (the initial values 6 and 2 stand when no branch matches). -/
def twinguardAirFactors (iaq : Nat) : Nat × Nat :=
  if 51 ≤ iaq ∧ iaq ≤ 100 then (10, 4)
  else if 101 ≤ iaq ∧ iaq ≤ 150 then (20, 4)
  else if 151 ≤ iaq ∧ iaq ≤ 200 then (50, 4)
  else if 201 ≤ iaq ∧ iaq ≤ 250 then (100, 4)
  else if 251 ≤ iaq then (100, 4)
  else (6, 2)

/-- Embedding of the airpurity branch of the Twinguard
twinguardMeasurements fromZigbee converter, src/lib/bosch.ts lines 531 to
554: for a report carrying airpurity iaq the patch receives aqi equal to
iaq, voc equal to iaq times the voc factor and co2 equal to iaq times the
co2 factor plus 400, in exact integer arithmetic.  The other attribute
branches of the same converter are independent of this one and are not
needed by the claims. -/
def twinguard_measurements_airpurity (iaq : Nat) : List (String × Nat) :=
  [("aqi", iaq),
   ("voc", iaq * (twinguardAirFactors iaq).fst),
   ("co2", iaq * (twinguardAirFactors iaq).snd + 400)]

/-- The per-device store of the last processed sequence number, keyed by
device identity. -/
abbrev DedupStore := List (Nat × Nat)

/-- The last processed sequence number recorded for a device. -/
def dedupLookup (store : DedupStore) (dev : Nat) : Option Nat :=
  (store.find? (fun p => p.fst == dev)).map Prod.snd

/-- Modelled from the spec: utils.hasAlreadyProcessedMessage
(src/lib/utils, not part of the excerpt).  Per spec section 4.1, the layer
exposes an already-processed check keyed by the sequence number carried in
the payload: the check answers true exactly when the sequence number equals
the one last recorded for the device, and otherwise records the new
sequence number, so that a converter invoked twice with the same sequence
number is a no-op the second time. -/
def hasAlreadyProcessedMessage (store : DedupStore) (dev seq : Nat) :
    Bool × DedupStore :=
  if dedupLookup store dev = some seq then (true, store)
  else (false, (dev, seq) :: store.filter (fun q => q.fst != dev))

/-- The pending long-press registry: a per-endpoint, per-button mapping
from button identity to the in-progress duration (spec section 3, Pending
Long-Press Registry). -/
abbrev Registry := List ((Nat × String) × Nat)

namespace globalStore

/-- Modelled from the spec: globalStore.hasValue (src/lib/store, not part
of the excerpt), the membership test of the per-endpoint keyed value
store. -/
def hasValue (reg : Registry) (ep : Nat) (key : String) : Bool :=
  (reg.find? (fun p => p.fst == (ep, key))).isSome

/-- Modelled from the spec: globalStore.putValue (src/lib/store, not part
of the excerpt), recording a value for the endpoint and key. -/
def putValue (reg : Registry) (ep : Nat) (key : String) (v : Nat) : Registry :=
  ((ep, key), v) :: reg.filter (fun p => p.fst != (ep, key))

/-- Modelled from the spec: globalStore.clearValue (src/lib/store, not
part of the excerpt), removing the entry of the endpoint and key; clearing
an absent entry is a no-op. -/
def clearValue (reg : Registry) (ep : Nat) (key : String) : Registry :=
  reg.filter (fun p => p.fst != (ep, key))

end globalStore

/-- Buffer.readUInt8 over the raw message bytes (positions used by the
button-press converter are always within the message). -/
def readUInt8 (data : List Nat) (i : Nat) : Nat := data.getD i 0

/-- Buffer.readUInt16LE over the raw message bytes. -/
def readUInt16LE (data : List Nat) (i : Nat) : Nat :=
  data.getD i 0 + 256 * data.getD (i + 1) 0

/-- Button identity lookup of the button-press converter,
src/devices/bosch.ts line 213. -/
def buttons : List (Nat × String) :=
  [(0, "top_left"), (1, "top_right"), (2, "bottom_left"), (3, "bottom_right")]

/-- Default LED confirmation buffer of the button-press converter,
src/devices/bosch.ts lines 206 and 209. -/
def defaultLedBuffer : List Nat := hexDecode "30ff00000102010001"

/-- Result of one invocation of the button-press fromZigbee converter: the
returned state patch (none when the converter returns without a patch),
the emitted fire-and-forget commands, and the updated dedup store and
long-press registry. -/
structure FzResult where
  patch : Option Patch
  effects : List Action
  dedup : DedupStore
  registry : Registry
  deriving Repr, DecidableEq

/-- The part of fzLocal.bhius_button_press.convert after the
already-processed check, src/devices/bosch.ts lines 213 to 230: an unknown
button identity only logs an error; a long press with nonzero duration
either is dropped when a registry entry already exists or records the
duration and yields the longpress action; otherwise the entry is cleared,
the release action is produced and the confirmButtonPressed acknowledgment
is emitted fire-and-forget (its failure is caught and discarded, so it
cannot influence the result). -/
def bhius_button_logic (buffer : List Nat) (buttonId longPress duration endpointId : Nat)
    (registry : Registry) : Option Patch × List Action × Registry :=
  match buttons.find? (fun p => p.fst == buttonId) with
  | some p =>
    let button := p.snd
    if longPress ≠ 0 ∧ duration > 0 then
      if globalStore.hasValue registry endpointId button then
        (none, [], registry)
      else
        (some [("action", .str ("button_" ++ button ++ "_longpress"))], [],
         globalStore.putValue registry endpointId button duration)
    else
      let command := if longPress ≠ 0 then "longpress_release" else "release"
      (some [("action", .str ("button_" ++ button ++ "_" ++ command))],
       [.commandNamed "boschSpecific" "confirmButtonPressed" buffer],
       globalStore.clearValue registry endpointId button)
  | none => (none, [], registry)

/-- Embedding of fzLocal.bhius_button_press.convert, src/devices/bosch.ts
lines 196 to 231.  The message fields are read from the raw bytes, the
LED response option is hex decoded with fallback to the default buffer on
a wrong length, the already-processed check runs (recording the sequence
number), and a repeated sequence number returns without patch or effect.
The ackFails flag states whether the fire-and-forget acknowledgment
command would be rejected; since the source attaches a catch handler that
discards the failure, the flag does not occur in the body. -/
def bhius_button_press_convert (ackFails : Bool) (ledResponse : Option String)
    (data : List Nat) (deviceId endpointId : Nat)
    (dedup : DedupStore) (registry : Registry) : FzResult :=
  let sequenceNumber := readUInt8 data 3
  let buttonId := readUInt8 data 4
  let longPress := readUInt8 data 5
  let duration := readUInt16LE data 6
  let buffer :=
    match ledResponse with
    | some s =>
      let b := hexDecode s
      if b.length ≠ 9 then defaultLedBuffer else b
    | none => defaultLedBuffer
  let checked := hasAlreadyProcessedMessage dedup deviceId sequenceNumber
  if checked.fst then
    ⟨none, [], checked.snd, registry⟩
  else
    let r := bhius_button_logic buffer buttonId longPress duration endpointId registry
    ⟨r.fst, r.snd.fst, checked.snd, r.snd.snd⟩

/-- Modelled from the spec: the decode converter registration of the
BSIR-EZ profile, src/devices/bosch.ts line 254.  The profile registers the
three library converters fz.ias_alarm_only_alarm_1, fz.battery and
fz.power_source, whose sources (src/converters/fromZigbee) are outside the
excerpt; per the spec (section 2, data flow), an inbound message is
offered only to converters whose cluster matches, and these converters
listen on the IAS zone cluster 0x0500, the power configuration cluster
0x0001 and the basic cluster 0x0000 respectively.  None is registered for
the IAS WD cluster 0x0502 that carries the siren configuration
attributes. -/
def bsirEzFromZigbee : List (String × Nat) :=
  [("ias_alarm_only_alarm_1", 0x0500), ("battery", 0x0001), ("power_source", 0x0000)]

/-- Whether some decode converter of the BSIR-EZ profile matches the given
cluster. -/
def bsirEzHandlesCluster (cluster : Nat) : Bool :=
  bsirEzFromZigbee.any (fun p => p.snd == cluster)

/-- The merged state patch an inbound message on the given cluster
produces: concatenation, in registration order, of the patches of the
converters whose cluster matches (spec section 4.1); conv gives each
converter behavior by name. -/
def dispatch (converters : List (String × Nat)) (conv : String → Patch)
    (cluster : Nat) : Patch :=
  ((converters.filter (fun p => p.snd == cluster)).map (fun p => conv p.fst)).foldr
    (fun a b => a ++ b) []

/-- Lookup table stateDeviceMode of the BMCT-SLZ exposes function,
src/devices/bosch.ts lines 939 to 943 (also src/lib/bosch.ts lines 696 to
700). -/
def stateDeviceMode : List (String × Nat) :=
  [("light", 0x04), ("shutter", 0x01), ("disabled", 0x00)]

/-- Descriptors of commonExposes, src/devices/bosch.ts lines 955 to 959:
the switch_type enum and linkquality. -/
def commonExposes : List String :=
  ["switch_type", "linkquality"]

/-- Descriptors of lightExposes, src/devices/bosch.ts lines 960 to 969:
the per-endpoint switch, power-on behavior and child lock, each suffixed
with its endpoint. -/
def lightExposes : List String :=
  ["switch_left", "switch_right",
   "power_on_behavior_left", "power_on_behavior_right",
   "child_lock_left", "child_lock_right"]

/-- Descriptors of coverExposes, src/devices/bosch.ts lines 970 to 988:
the cover with position, the motor state, the child lock and the four
calibration times. -/
def coverExposes : List String :=
  ["cover_position", "motor_state", "child_lock",
   "calibration_closing_time", "calibration_opening_time",
   "calibration_button_hold_time", "calibration_motor_start_delay"]

/-- Embedding of the BMCT-SLZ exposes function, src/devices/bosch.ts lines
938 to 1002.  The argument is the device handle (none when absent)
carrying the stored value of the boschSpecific deviceMode attribute (none
when never read).  The symbolic mode is the key of stateDeviceMode whose
code equals the stored value; mode light exposes the common and light
descriptors, mode shutter the common and cover descriptors, and every
other case falls through to the device_mode selector and linkquality. -/
def bmctExposes (device : Option (Option Nat)) : List String :=
  match device with
  | some deviceModeKey =>
    match stateDeviceMode.find? (fun p => (some p.snd : Option Nat) == deviceModeKey) with
    | some p =>
      if p.fst = "light" then commonExposes ++ lightExposes
      else if p.fst = "shutter" then commonExposes ++ coverExposes
      else ["device_mode", "linkquality"]
    | none => ["device_mode", "linkquality"]
  | none => ["device_mode", "linkquality"]

/-- The factor table exactly as the claim words it: the pair of voc and
co2 factors as a function of the iaq bucket. -/
def claimAirFactors (iaq : Nat) : Nat × Nat :=
  if iaq ≤ 50 then (6, 2)
  else if iaq ≤ 100 then (10, 4)
  else if iaq ≤ 150 then (20, 4)
  else if iaq ≤ 200 then (50, 4)
  else (100, 4)

/-- A lookup over the first components finds nothing when the key is
outside the table. -/
theorem find?_fst_eq_none {α : Type} (l : List (String × α)) (key : String)
    (h : key ∉ l.map Prod.fst) : l.find? (fun p => p.fst == key) = none := by
  rw [List.find?_eq_none]
  intro p hp
  simp only [beq_iff_eq]
  exact fun e => h (e ▸ List.mem_map_of_mem Prod.fst hp)

/-- A value that is not a symbol of the table makes getFromLookup fail
with an error. -/
theorem getFromLookup_not_in_table (value : Val) (table : List (String × Nat))
    (h : ∀ p ∈ table, Val.str p.fst ≠ value) :
    ∃ m, getFromLookup value table = .error m := by
  cases value with
  | str s =>
    have hn : table.find? (fun p => p.fst == s) = none := by
      rw [List.find?_eq_none]
      intro p hp
      simp only [beq_iff_eq]
      exact fun e => h p hp (by rw [e])
    exact ⟨"Value " ++ s ++ " is not allowed, expected one of the lookup table keys",
      by simp [getFromLookup, hn]⟩
  | num n => exact ⟨_, rfl⟩
  | bool b => exact ⟨_, rfl⟩
  | undef => exact ⟨_, rfl⟩

/-- After the already-processed check runs, the sequence number is the one
recorded for the device. -/
theorem dedupLookup_after (store : DedupStore) (dev seq : Nat) :
    dedupLookup (hasAlreadyProcessedMessage store dev seq).snd dev = some seq := by
  unfold hasAlreadyProcessedMessage
  split_ifs with h
  · exact h
  · unfold dedupLookup
    rw [List.find?_cons_of_pos _ (by simp)]
    rfl

/-- The already-processed check answers true and keeps the store when the
sequence number is the recorded one. -/
theorem hasAlreadyProcessedMessage_true (store : DedupStore) (dev seq : Nat)
    (h : dedupLookup store dev = some seq) :
    hasAlreadyProcessedMessage store dev seq = (true, store) := by
  unfold hasAlreadyProcessedMessage
  rw [if_pos h]

/-- The button-press converter always leaves the dedup store as the
already-processed check produced it. -/
theorem bhius_convert_dedup (a : Bool) (led : Option String) (data : List Nat)
    (dev ep : Nat) (dedup : DedupStore) (reg : Registry) :
    (bhius_button_press_convert a led data dev ep dedup reg).dedup =
      (hasAlreadyProcessedMessage dedup dev (readUInt8 data 3)).snd := by
  simp only [bhius_button_press_convert]
  split <;> rfl

/-- Clearing an entry removes it: the registry no longer has a value for
that endpoint and button. -/
theorem hasValue_clearValue (reg : Registry) (ep : Nat) (k : String) :
    globalStore.hasValue (globalStore.clearValue reg ep k) ep k = false := by
  have hn : (reg.filter (fun p => p.fst != (ep, k))).find?
      (fun p => p.fst == (ep, k)) = none := by
    rw [List.find?_eq_none]
    intro x hx
    have hx2 := (List.mem_filter.mp hx).2
    rw [bne_iff_ne] at hx2
    simp [hx2]
  simp [globalStore.hasValue, globalStore.clearValue, hn]

/-- Clearing an absent entry is a no-op on the registry. -/
theorem clearValue_noop (reg : Registry) (ep : Nat) (k : String)
    (h : globalStore.hasValue reg ep k = false) :
    globalStore.clearValue reg ep k = reg := by
  unfold globalStore.clearValue
  rw [List.filter_eq_self]
  intro x hx
  have hf : reg.find? (fun p => p.fst == (ep, k)) = none := by
    cases hh : reg.find? (fun p => p.fst == (ep, k)) with
    | none => rfl
    | some v => rw [globalStore.hasValue, hh] at h; simp at h
  have hne := List.find?_eq_none.mp hf x hx
  simp only [beq_iff_eq] at hne
  rw [bne_iff_ne]
  exact hne

/-- C1: the claim asserts the round-trip law decode(encode(symbol)) ==
symbol for the twinguard sensitivity table with low 0x03, medium 0x02,
high 0x01.  The code violates it: the encode path translates through the
table (medium writes 0x02), but the decode path indexes the key array
positionally, so the wire code 0x02 decodes to high, 0x01 decodes to
medium and 0x03 decodes to no symbol at all. -/
theorem C1_sensitivity_roundtrip_broken :
    twinguard_convertSet "sensitivity" (.str "medium") =
      .ok [.writeNamed "twinguardSmokeDetector" "sensitivity" 0x02]
        (some [("sensitivity", .str "medium")]) ∧
    twinguard_smokeDetector_convert (some 0x02) = [("sensitivity", .str "high")] ∧
    twinguard_smokeDetector_convert (some 0x01) = [("sensitivity", .str "medium")] ∧
    twinguard_smokeDetector_convert (some 0x03) = [("sensitivity", .undef)] :=
  ⟨rfl, rfl, rfl, rfl⟩

/-- C3 counterexample: the BSIR-EZ profile registers no decode converter
for the IAS WD cluster 0x0502, so an inbound read-response carrying 0x02
for attribute 0xa002 produces the empty patch, not the claimed state patch
with siren_volume medium, whatever the library converters would decode on
their own clusters. -/
theorem C3_no_siren_volume_decode :
    bsirEzHandlesCluster 0x0502 = false ∧
    dispatch bsirEzFromZigbee (fun _ => [("siren_volume", .str "medium")]) 0x0502 = [] :=
  ⟨rfl, rfl⟩

/-- C3 amended: encoding siren_volume medium produces exactly one write
carrying 0x02 to attribute 0xa002 of cluster 0x0502, and the sirenVolume
table inversely maps 0x02 to medium; but the BSIR-EZ profile registers no
decode converter matching cluster 0x0502, so an inbound read-response for
that attribute produces no state patch regardless of the library converter
behaviors. -/
theorem C3_siren_volume_medium (conv : String → Patch) :
    rbshoszbeu_convertSet "siren_volume" (.str "medium") =
      .ok [.writeAttr 0x0502 0xa002 (.num 0x02) 0x20]
        (some [("siren_volume", .str "medium")]) ∧
    lookupByValue sirenVolume 0x02 = some "medium" ∧
    dispatch bsirEzFromZigbee conv 0x0502 = [] :=
  ⟨rfl, rfl, rfl⟩

/-- C6 counterexample: both shared convertSet functions silently return
without an error and without issuing any write when invoked with a key
outside their declared list, against the claim that every invocation with
an unrecognized key throws. -/
theorem C6_set_silently_ignores_unknown_key :
    bhius_config_convertSet "led_color" "30ff00000102010001" = .ok [] none ∧
    rbshoszbeu_convertSet "led_color" (.str "medium") = .ok [] none :=
  ⟨rfl, rfl⟩

/-- C8 counterexample: the Twinguard genAlarms decode converter awaits its
acknowledgment commandResponse without a catch handler, so when that
command is rejected the failure propagates out of the decode invocation
instead of the converter returning the siren_state patch it returns when
the command succeeds. -/
theorem C8_twinguard_ack_failure_propagates :
    twinguard_genAlarms_convert true 0x10 = .error "commandResponse rejected" ∧
    twinguard_genAlarms_convert false 0x10 =
      .ok ([.commandResponse "genAlarms" "alarm" 0x10 0xe000],
           [("siren_state", .str "fire")]) :=
  ⟨rfl, rfl⟩

/-- C9: the BMCT-SLZ exposed-property set is a function of the stored
device mode: mode shutter (0x01) exposes the common descriptors plus the
cover descriptors, mode light (0x04) the common descriptors plus the
switch descriptors, the two specific sets are disjoint, and the overlap of
the two exposed sets is exactly the common descriptors switch_type and
linkquality. -/
theorem C9_bmct_mode_exposes :
    bmctExposes (some (some 0x01)) = commonExposes ++ coverExposes ∧
    bmctExposes (some (some 0x04)) = commonExposes ++ lightExposes ∧
    coverExposes.inter lightExposes = [] ∧
    (bmctExposes (some (some 0x01))).inter (bmctExposes (some (some 0x04))) =
      commonExposes := by
  refine ⟨rfl, rfl, ?_, ?_⟩ <;> decide

/-- C10: for every airpurity report the decoded patch has aqi equal to
iaq, voc equal to iaq times the voc factor and co2 equal to iaq times the
co2 factor plus 400, with the factor pair (6, 2) for iaq up to 50,
(10, 4) for 51 to 100, (20, 4) for 101 to 150, (50, 4) for 151 to 200 and
(100, 4) from 201 on, in exact integer arithmetic. -/
theorem C10_airpurity_factors (iaq : Nat) :
    twinguard_measurements_airpurity iaq =
      [("aqi", iaq),
       ("voc", iaq * (claimAirFactors iaq).fst),
       ("co2", iaq * (claimAirFactors iaq).snd + 400)] := by
  have h : twinguardAirFactors iaq = claimAirFactors iaq := by
    unfold twinguardAirFactors claimAirFactors
    split_ifs <;> first | rfl | (exfalso; omega)
  simp [twinguard_measurements_airpurity, h]

/-- C2: every enum-typed convertSet branch invoked with a requested value
outside its own declared lookup table fails with a descriptive error and
issues no wire operation.  The quantification is per property: each
conjunct assumes only that the value is outside that property's table, so
a value that happens to be a symbol of a sibling table (such as
siren_and_light = medium) is covered as well.  The properties are
siren_volume, siren_and_light and power_source of the outdoor siren, and
sensitivity and pre_alarm of the Twinguard. -/
theorem C2_enum_set_rejects_unknown_value (v : Val) :
    ((∀ p ∈ sirenVolume, Val.str p.fst ≠ v) →
      (rbshoszbeu_convertSet "siren_volume" v).failedCleanly = true) ∧
    ((∀ p ∈ sirenLight, Val.str p.fst ≠ v) →
      (rbshoszbeu_convertSet "siren_and_light" v).failedCleanly = true) ∧
    ((∀ p ∈ sirenPowerSupply, Val.str p.fst ≠ v) →
      (rbshoszbeu_convertSet "power_source" v).failedCleanly = true) ∧
    ((∀ p ∈ smokeSensitivity, Val.str p.fst ≠ v) →
      (twinguard_convertSet "sensitivity" v).failedCleanly = true) ∧
    ((∀ p ∈ stateOffOn, Val.str p.fst ≠ v) →
      (twinguard_convertSet "pre_alarm" v).failedCleanly = true) := by
  refine ⟨fun h1 => ?_, fun h2 => ?_, fun h3 => ?_, fun h4 => ?_, fun h5 => ?_⟩
  · obtain ⟨m, e⟩ := getFromLookup_not_in_table v sirenVolume h1
    unfold rbshoszbeu_convertSet
    rw [e]
    rfl
  · obtain ⟨m, e⟩ := getFromLookup_not_in_table v sirenLight h2
    unfold rbshoszbeu_convertSet
    rw [e]
    rfl
  · obtain ⟨m, e⟩ := getFromLookup_not_in_table v sirenPowerSupply h3
    unfold rbshoszbeu_convertSet
    rw [e]
    rfl
  · obtain ⟨m, e⟩ := getFromLookup_not_in_table v smokeSensitivity h4
    unfold twinguard_convertSet
    rw [e]
    rfl
  · obtain ⟨m, e⟩ := getFromLookup_not_in_table v stateOffOn h5
    unfold twinguard_convertSet
    rw [e]
    rfl

/-- Witness for C2 at concrete cross-table values: medium is a symbol of
the sirenVolume table but not of the sirenLight, sirenPowerSupply or
stateOffOn tables, and only_light is a symbol of the sirenLight table but
not of the sirenVolume or smokeSensitivity tables; each such set fails
cleanly. -/
theorem C2_enum_set_rejects_unknown_value_witness :
    (rbshoszbeu_convertSet "siren_volume" (.str "only_light")).failedCleanly = true ∧
    (rbshoszbeu_convertSet "siren_and_light" (.str "medium")).failedCleanly = true ∧
    (rbshoszbeu_convertSet "power_source" (.str "medium")).failedCleanly = true ∧
    (twinguard_convertSet "sensitivity" (.str "only_light")).failedCleanly = true ∧
    (twinguard_convertSet "pre_alarm" (.str "medium")).failedCleanly = true :=
  ⟨(C2_enum_set_rejects_unknown_value (.str "only_light")).1 (by decide),
   (C2_enum_set_rejects_unknown_value (.str "medium")).2.1 (by decide),
   (C2_enum_set_rejects_unknown_value (.str "medium")).2.2.1 (by decide),
   (C2_enum_set_rejects_unknown_value (.str "only_light")).2.2.2.1 (by decide),
   (C2_enum_set_rejects_unknown_value (.str "medium")).2.2.2.2 (by decide)⟩

/-- C6 amended: a shared converter invoked with a key outside its declared
list throws a descriptive error on get (both the Universal Switch II
LED-config converter and the outdoor-siren converter), but on set both
converters silently return without an error and without issuing any
write. -/
theorem C6_unknown_key_behavior (key : String) (value : Val) (hexValue : String)
    (h1 : key ∉ buttonMap.map Prod.fst)
    (h2 : key ∉ rbshoszbeuKeys) :
    (∃ m, bhius_config_convertGet key = .error m) ∧
    (∃ m, rbshoszbeu_convertGet key = .error m) ∧
    bhius_config_convertSet key hexValue = .ok [] none ∧
    rbshoszbeu_convertSet key value = .ok [] none := by
  have hb := find?_fst_eq_none buttonMap key h1
  simp only [rbshoszbeuKeys, List.mem_cons, List.not_mem_nil, or_false, not_or] at h2
  obtain ⟨n1, n2, n3, n4, n5, n6, n7, n8⟩ := h2
  refine ⟨⟨"Unknown key " ++ key, ?_⟩,
    ⟨"Unhandled key toZigbee.rbshoszbeu.convertGet " ++ key, ?_⟩, ?_, ?_⟩
  · simp [bhius_config_convertGet, hb]
  · simp [rbshoszbeu_convertGet, n1, n2, n3, n4, n5, n6, n7, n8]
  · simp [bhius_config_convertSet, hb]
  · simp [rbshoszbeu_convertSet, n1, n2, n3, n4, n5, n6, n7, n8]

/-- Witness for C6 at the concrete key led_color, which is in neither
declared key list. -/
theorem C6_unknown_key_behavior_witness :
    (∃ m, bhius_config_convertGet "led_color" = .error m) ∧
    (∃ m, rbshoszbeu_convertGet "led_color" = .error m) ∧
    bhius_config_convertSet "led_color" "30ff00000102010001" = .ok [] none ∧
    rbshoszbeu_convertSet "led_color" (.str "medium") = .ok [] none :=
  C6_unknown_key_behavior "led_color" (.str "medium") "30ff00000102010001"
    (by decide) (by decide)

/-- C7: setting valve_adapt_process to true issues exactly one
calibrateValve command and returns the optimistic patch when the known
status is ready_to_calibrate or error, and throws before any command for
every other known status. -/
theorem C7_valve_adapt_gate (status : String)
    (hknown : status ∈ adaptationStatus.map Prod.fst) :
    ((status = "ready_to_calibrate" ∨ status = "error") →
      valveAdaptProcess_convertSet (.bool true) (.str status) =
        .ok [.commandNamed "hvacThermostat" "calibrateValve" []]
          (some [("valve_adapt_process", .bool true)])) ∧
    (¬(status = "ready_to_calibrate" ∨ status = "error") →
      (valveAdaptProcess_convertSet (.bool true) (.str status)).failedCleanly = true) := by
  simp only [adaptationStatus, List.map_cons, List.map_nil, List.mem_cons,
    List.not_mem_nil, or_false] at hknown
  rcases hknown with rfl | rfl | rfl | rfl | rfl <;> exact ⟨by decide, by decide⟩

/-- Witness for C7 at the concrete known statuses ready_to_calibrate and
calibration_in_progress. -/
theorem C7_valve_adapt_gate_witness :
    valveAdaptProcess_convertSet (.bool true) (.str "ready_to_calibrate") =
      .ok [.commandNamed "hvacThermostat" "calibrateValve" []]
        (some [("valve_adapt_process", .bool true)]) ∧
    (valveAdaptProcess_convertSet (.bool true) (.str "calibration_in_progress")).failedCleanly
      = true :=
  ⟨(C7_valve_adapt_gate "ready_to_calibrate" (by decide)).1 (Or.inl rfl),
   (C7_valve_adapt_gate "calibration_in_progress" (by decide)).2 (by decide)⟩

/-- C8 amended: the button-press acknowledgment is fire-and-forget with
its failure caught and discarded, so the entire decode result is
independent of whether that command is rejected; the Twinguard genAlarms
acknowledgment however is awaited without a catch, so for the alarm codes
that trigger it a rejected command propagates as an error out of the
decode invocation. -/
theorem C8_side_effect_failures (led : Option String) (data : List Nat)
    (dev ep : Nat) (dedup : DedupStore) (reg : Registry) (code : Nat)
    (hcode : code = 0x10 ∨ code = 0x11) :
    bhius_button_press_convert true led data dev ep dedup reg =
      bhius_button_press_convert false led data dev ep dedup reg ∧
    twinguard_genAlarms_convert true code = .error "commandResponse rejected" := by
  constructor
  · rfl
  · unfold twinguard_genAlarms_convert
    rw [if_pos hcode, if_pos rfl]

/-- Witness for C8 at a concrete message and the concrete alarm code
0x10. -/
theorem C8_side_effect_failures_witness :
    bhius_button_press_convert true none [0, 0, 0, 7, 0, 1, 5, 0] 1 1 [] [] =
      bhius_button_press_convert false none [0, 0, 0, 7, 0, 1, 5, 0] 1 1 [] [] ∧
    twinguard_genAlarms_convert true 0x10 = .error "commandResponse rejected" :=
  C8_side_effect_failures none [0, 0, 0, 7, 0, 1, 5, 0] 1 1 [] [] 0x10 (Or.inl rfl)

/-- Reduction of the button-press converter on a fresh sequence number:
the already-processed check records the sequence number and the post-check
logic runs. -/
theorem bhius_convert_fresh (a : Bool) (led : Option String) (data : List Nat)
    (dev ep : Nat) (dedup : DedupStore) (reg : Registry)
    (hfresh : ¬ dedupLookup dedup dev = some (readUInt8 data 3)) :
    bhius_button_press_convert a led data dev ep dedup reg =
      let buffer := match led with
        | some s =>
          let b := hexDecode s
          if b.length ≠ 9 then defaultLedBuffer else b
        | none => defaultLedBuffer
      let r := bhius_button_logic buffer (readUInt8 data 4) (readUInt8 data 5)
        (readUInt16LE data 6) ep reg
      ⟨r.fst, r.snd.fst,
       (dev, readUInt8 data 3) :: dedup.filter (fun q => q.fst != dev),
       r.snd.snd⟩ := by
  have hch : hasAlreadyProcessedMessage dedup dev (readUInt8 data 3) =
      (false, (dev, readUInt8 data 3) :: dedup.filter (fun q => q.fst != dev)) := by
    unfold hasAlreadyProcessedMessage
    rw [if_neg hfresh]
  simp only [bhius_button_press_convert, hch]
  rfl

/-- Reduction of the post-check logic when the button identity is found in
the button table. -/
theorem bhius_logic_found (buffer : List Nat) (buttonId longPress duration ep : Nat)
    (reg : Registry) (btn : String)
    (hbtn : buttons.find? (fun p => p.fst == buttonId) = some (buttonId, btn)) :
    bhius_button_logic buffer buttonId longPress duration ep reg =
      (if longPress ≠ 0 ∧ duration > 0 then
        if globalStore.hasValue reg ep btn then (none, [], reg)
        else (some [("action", .str ("button_" ++ btn ++ "_longpress"))], [],
              globalStore.putValue reg ep btn duration)
      else
        (some [("action", .str ("button_" ++ btn ++ "_" ++
           (if longPress ≠ 0 then "longpress_release" else "release")))],
         [.commandNamed "boschSpecific" "confirmButtonPressed" buffer],
         globalStore.clearValue reg ep btn)) := by
  simp only [bhius_button_logic, hbtn]

/-- C4: two inbound raw button-press messages carrying the same sequence
number for the same endpoint make the second invocation of the decode
converter a no-op: it produces no state patch, emits no side-effect
command, and leaves both the dedup store and the long-press registry
unchanged. -/
theorem C4_button_press_dedup (a1 a2 : Bool) (led1 led2 : Option String)
    (data1 data2 : List Nat) (dev ep : Nat) (dedup : DedupStore) (reg : Registry)
    (hseq : readUInt8 data2 3 = readUInt8 data1 3) :
    (bhius_button_press_convert a2 led2 data2 dev ep
        (bhius_button_press_convert a1 led1 data1 dev ep dedup reg).dedup
        (bhius_button_press_convert a1 led1 data1 dev ep dedup reg).registry).patch
      = none ∧
    (bhius_button_press_convert a2 led2 data2 dev ep
        (bhius_button_press_convert a1 led1 data1 dev ep dedup reg).dedup
        (bhius_button_press_convert a1 led1 data1 dev ep dedup reg).registry).effects
      = [] ∧
    (bhius_button_press_convert a2 led2 data2 dev ep
        (bhius_button_press_convert a1 led1 data1 dev ep dedup reg).dedup
        (bhius_button_press_convert a1 led1 data1 dev ep dedup reg).registry).dedup
      = (bhius_button_press_convert a1 led1 data1 dev ep dedup reg).dedup ∧
    (bhius_button_press_convert a2 led2 data2 dev ep
        (bhius_button_press_convert a1 led1 data1 dev ep dedup reg).dedup
        (bhius_button_press_convert a1 led1 data1 dev ep dedup reg).registry).registry
      = (bhius_button_press_convert a1 led1 data1 dev ep dedup reg).registry := by
  set r1 := bhius_button_press_convert a1 led1 data1 dev ep dedup reg with hr1
  have hlook : dedupLookup r1.dedup dev = some (readUInt8 data2 3) := by
    rw [hseq, hr1, bhius_convert_dedup]
    exact dedupLookup_after dedup dev (readUInt8 data1 3)
  have hch : hasAlreadyProcessedMessage r1.dedup dev (readUInt8 data2 3) =
      (true, r1.dedup) :=
    hasAlreadyProcessedMessage_true _ _ _ hlook
  simp only [bhius_button_press_convert, hch]
  exact ⟨rfl, rfl, rfl, rfl⟩

/-- Witness for C4: the same raw message processed twice from the empty
stores. -/
theorem C4_button_press_dedup_witness :
    (bhius_button_press_convert false none [0, 0, 0, 7, 0, 1, 5, 0] 1 1
        (bhius_button_press_convert false none [0, 0, 0, 7, 0, 1, 5, 0] 1 1 [] []).dedup
        (bhius_button_press_convert false none [0, 0, 0, 7, 0, 1, 5, 0] 1 1 [] []).registry).patch
      = none ∧
    (bhius_button_press_convert false none [0, 0, 0, 7, 0, 1, 5, 0] 1 1
        (bhius_button_press_convert false none [0, 0, 0, 7, 0, 1, 5, 0] 1 1 [] []).dedup
        (bhius_button_press_convert false none [0, 0, 0, 7, 0, 1, 5, 0] 1 1 [] []).registry).effects
      = [] ∧
    (bhius_button_press_convert false none [0, 0, 0, 7, 0, 1, 5, 0] 1 1
        (bhius_button_press_convert false none [0, 0, 0, 7, 0, 1, 5, 0] 1 1 [] []).dedup
        (bhius_button_press_convert false none [0, 0, 0, 7, 0, 1, 5, 0] 1 1 [] []).registry).dedup
      = (bhius_button_press_convert false none [0, 0, 0, 7, 0, 1, 5, 0] 1 1 [] []).dedup ∧
    (bhius_button_press_convert false none [0, 0, 0, 7, 0, 1, 5, 0] 1 1
        (bhius_button_press_convert false none [0, 0, 0, 7, 0, 1, 5, 0] 1 1 [] []).dedup
        (bhius_button_press_convert false none [0, 0, 0, 7, 0, 1, 5, 0] 1 1 [] []).registry).registry
      = (bhius_button_press_convert false none [0, 0, 0, 7, 0, 1, 5, 0] 1 1 [] []).registry :=
  C4_button_press_dedup false false none none
    [0, 0, 0, 7, 0, 1, 5, 0] [0, 0, 0, 7, 0, 1, 5, 0] 1 1 [] [] rfl

/-- C5: lifecycle invariant of the pending long-press registry, for a
message with a fresh sequence number and a recognized button.  A long
press with nonzero duration creates the registry entry with the reported
duration exactly when none exists (and produces the longpress action),
while a repeated long press with an existing entry produces no additional
patch and leaves the registry unchanged; a release clears the entry for
that button (the resulting registry has no value for it) while still
producing the release action; and a release with no prior entry leaves
the registry unchanged, a no-op with respect to the registry rather than
an error. -/
theorem C5_longpress_lifecycle (a : Bool) (led : Option String) (data : List Nat)
    (dev ep : Nat) (btn : String) (dedup : DedupStore) (reg : Registry)
    (hfresh : ¬ dedupLookup dedup dev = some (readUInt8 data 3))
    (hbtn : buttons.find? (fun p => p.fst == readUInt8 data 4) =
      some (readUInt8 data 4, btn)) :
    ((readUInt8 data 5 ≠ 0 ∧ readUInt16LE data 6 > 0) →
      (globalStore.hasValue reg ep btn = false →
        (bhius_button_press_convert a led data dev ep dedup reg).registry =
          globalStore.putValue reg ep btn (readUInt16LE data 6) ∧
        (bhius_button_press_convert a led data dev ep dedup reg).patch =
          some [("action", .str ("button_" ++ btn ++ "_longpress"))]) ∧
      (globalStore.hasValue reg ep btn = true →
        (bhius_button_press_convert a led data dev ep dedup reg).patch = none ∧
        (bhius_button_press_convert a led data dev ep dedup reg).registry = reg)) ∧
    ((readUInt8 data 5 = 0 ∨ readUInt16LE data 6 = 0) →
      (bhius_button_press_convert a led data dev ep dedup reg).registry =
        globalStore.clearValue reg ep btn ∧
      globalStore.hasValue
        (bhius_button_press_convert a led data dev ep dedup reg).registry ep btn
        = false ∧
      (∃ c, (bhius_button_press_convert a led data dev ep dedup reg).patch =
        some [("action", .str ("button_" ++ btn ++ "_" ++ c))])) ∧
    ((readUInt8 data 5 = 0 ∨ readUInt16LE data 6 = 0) →
      globalStore.hasValue reg ep btn = false →
      (bhius_button_press_convert a led data dev ep dedup reg).registry = reg) := by
  rw [bhius_convert_fresh a led data dev ep dedup reg hfresh]
  simp only [bhius_logic_found _ _ _ _ _ _ btn hbtn]
  refine ⟨fun hlp => ⟨fun hhas => ?_, fun hhas => ?_⟩,
    fun hrel => ?_, fun hrel hhas => ?_⟩
  · rw [if_pos hlp, hhas]
    exact ⟨rfl, rfl⟩
  · rw [if_pos hlp, hhas]
    exact ⟨rfl, rfl⟩
  · have hnot : ¬ (readUInt8 data 5 ≠ 0 ∧ readUInt16LE data 6 > 0) := by
      rcases hrel with h | h <;> omega
    rw [if_neg hnot]
    exact ⟨rfl, hasValue_clearValue reg ep btn,
      ⟨if readUInt8 data 5 ≠ 0 then "longpress_release" else "release", rfl⟩⟩
  · have hnot : ¬ (readUInt8 data 5 ≠ 0 ∧ readUInt16LE data 6 > 0) := by
      rcases hrel with h | h <;> omega
    rw [if_neg hnot]
    exact clearValue_noop reg ep btn hhas

/-- Witness for C5: a long press of the top left button with duration 5
arriving with the fresh sequence number 7 on the empty registry creates
the entry and yields the longpress action. -/
theorem C5_longpress_lifecycle_witness :
    (bhius_button_press_convert false none [0, 0, 0, 7, 0, 1, 5, 0] 1 1 [] []).registry =
      globalStore.putValue [] 1 "top_left" (readUInt16LE [0, 0, 0, 7, 0, 1, 5, 0] 6) ∧
    (bhius_button_press_convert false none [0, 0, 0, 7, 0, 1, 5, 0] 1 1 [] []).patch =
      some [("action", .str ("button_" ++ "top_left" ++ "_longpress"))] :=
  ((C5_longpress_lifecycle false none [0, 0, 0, 7, 0, 1, 5, 0] 1 1 "top_left" [] []
      (by decide) (by decide)).1 (by decide)).1 (by decide)

end BoschZhc
